import Mathlib

/-!
Verification of the social-media downloader backend (`src/main.py`).

The Python source is shallowly embedded below: pure helpers (platform
detection, error-message classification, title sanitization, format
filtering/sorting) become Lean functions; the filesystem side effects of a
download request (temporary workspace creation, materialization by the
extraction engine, cleanup) become explicit state passing over a small
filesystem model; the behavior of the external extraction engine and of the
scraping fallback is supplied through oracle values describing what the
external call returned, while all control flow around those calls is
translated from the source.
-/

namespace YTDLP

/-! ## String helpers: the Python `in` operator on strings -/

/-- Boolean test that `pat` is a prefix of the second list. -/
def leadsWith : List Char → List Char → Bool
  | [], _ => true
  | _ :: _, [] => false
  | a :: as, b :: bs => a == b && leadsWith as bs

/-- Boolean substring search: `hasSub pat s` is the Python `pat in s`. -/
def hasSub (pat : List Char) : List Char → Bool
  | [] => leadsWith pat []
  | c :: rest => leadsWith pat (c :: rest) || hasSub pat rest

/-- The Python expression `sub in s` on strings. -/
def str_in (sub s : String) : Bool := hasSub sub.toList s.toList

/-- Python `str.lower()` (modelled over the ASCII range, which covers every
string the source lowercases: URLs and engine error messages). -/
def py_lower (s : String) : String := (s.toList.map Char.toLower).asString

/-- The Python expression `sub in s.lower()`. -/
def str_in_lower (sub s : String) : Bool := str_in sub (py_lower s)

/-! ## Platform classifier (`detect_platform`, main.py lines 75-92) -/

inductive Platform where
  | youtube | tiktok | instagram | facebook | twitter | linkedin | unknown
deriving DecidableEq, Repr

/-- `detect_platform` from main.py: case-insensitive substring match against
the fixed marker table, first match wins, no match is `unknown`. -/
def detect_platform (url : String) : Platform :=
  let url_lower := py_lower url
  if str_in "youtube.com" url_lower || str_in "youtu.be" url_lower then .youtube
  else if str_in "tiktok.com" url_lower then .tiktok
  else if str_in "instagram.com" url_lower then .instagram
  else if str_in "facebook.com" url_lower || str_in "fb.watch" url_lower then .facebook
  else if str_in "twitter.com" url_lower || str_in "x.com" url_lower then .twitter
  else if str_in "linkedin.com" url_lower then .linkedin
  else .unknown

/-! ## Engine format dictionaries and the metadata candidate pipeline
(`get_ytdlp_info`, main.py lines 156-191) -/

/-- One entry of the engine's `info['formats']` list, restricted to the keys
the source reads.  `none` stands for a key that is absent or bound to
Python `None` (`dict.get` does not distinguish them). -/
structure RawFormat where
  format_id : Option String
  format_note : Option String
  quality : Option String
  ext : Option String
  filesize : Option Nat
  url : Option String
  vcodec : Option String
  height : Option Nat
  width : Option Nat
  fps : Option Nat
deriving DecidableEq, Repr

/-- One entry of the candidates list built by `get_ytdlp_info` (the dict
appended at main.py lines 169-178; the scraping fallbacks build entries with
only `url`, `quality` and `ext` set). -/
structure CandEntry where
  format_id : Option String
  quality : Option String
  ext : Option String
  filesize : Option Nat
  url : Option String
  height : Option Nat
  width : Option Nat
  fps : Option Nat
deriving DecidableEq, Repr

/-- The filter condition at main.py line 168: `f.get('vcodec') != 'none'`. -/
def keepFormat (f : RawFormat) : Bool := f.vcodec != some "none"

/-- The dict built at main.py lines 169-178.  The quality field is
`f.get('format_note', f.get('quality', 'unknown'))`. -/
def toCandidate (f : RawFormat) : CandEntry :=
  { format_id := f.format_id
    quality := some (f.format_note.getD (f.quality.getD "unknown"))
    ext := f.ext
    filesize := f.filesize
    url := f.url
    height := f.height
    width := f.width
    fps := f.fps }

/-- The sort key at main.py line 180:
`x.get('height', 0) if x.get('height') else 0` (a missing height, a `None`
height and a zero height all key to 0). -/
def candKey (c : CandEntry) : Nat := c.height.getD 0

/-- One insertion step of the model of
`formats.sort(key=..., reverse=True)`: walk past entries with a strictly
larger key and stop at the first entry whose key is not larger, so that an
element inserted earlier in the original order lands before every
equal-key element — exactly the stability guarantee of Python's sort
(which, with `reverse=True`, is a stable sort by descending key). -/
def insertDesc (x : CandEntry) : List CandEntry → List CandEntry
  | [] => [x]
  | y :: ys => if candKey x < candKey y then y :: insertDesc x ys else x :: y :: ys

/-- Stable sort by descending `candKey`, the model of line 180 of main.py. -/
def sort_by_height_desc : List CandEntry → List CandEntry
  | [] => []
  | x :: xs => insertDesc x (sort_by_height_desc xs)

/-- The sorted candidate list before the `[:10]` cap (used to state the
stability invariant). -/
def sorted_candidates (fs : List RawFormat) : List CandEntry :=
  sort_by_height_desc ((fs.filter keepFormat).map toCandidate)

/-- Lines 165-189 of main.py: filter out `vcodec == 'none'` entries, build
candidate dicts, stable-sort by descending height, keep the first 10. -/
def build_candidates (fs : List RawFormat) : List CandEntry :=
  (sorted_candidates fs).take 10

/-! ## Error-message classification -/

/-- An HTTP error response: the status code and the detail string the
caller sees. -/
structure ErrResp where
  status : Nat
  detail : String
deriving DecidableEq, Repr

/-- The `yt_dlp.utils.DownloadError` handler of `get_ytdlp_info`
(main.py lines 192-210): 403/Forbidden, then 404/not-found, then timeout,
else 400 with the raw message appended. -/
def classifyExtractError (msg : String) : ErrResp :=
  if str_in "403" msg || str_in "Forbidden" msg then
    ⟨403, "Access denied - content may be private or geo-blocked"⟩
  else if str_in "404" msg || str_in_lower "not found" msg then
    ⟨404, "Content not found - URL may be invalid"⟩
  else if str_in_lower "timeout" msg then
    ⟨408, "Request timeout - please try again"⟩
  else ⟨400, "Failed to extract info: " ++ msg⟩

/-- The `yt_dlp.utils.DownloadError` handler of `download_media_streaming`
(main.py lines 417-432): 403/Forbidden, then timeout, else 400 — it has no
404 branch. -/
def classifyDownloadError (msg : String) : ErrResp :=
  if str_in "403" msg || str_in "Forbidden" msg then
    ⟨403, "Access denied - content may be private or geo-blocked"⟩
  else if str_in_lower "timeout" msg then
    ⟨408, "Download timeout - please try again"⟩
  else ⟨400, "Download failed: " ++ msg⟩

/-- `global_exception_handler` (main.py lines 614-640), modelled on the
detail string of the JSON body it produces.  Note the final branch embeds
the raw exception text in the 500 response. -/
def global_exception_handler (msg : String) : ErrResp :=
  if str_in_lower "timeout" msg then
    ⟨408, "Download timeout - please try again"⟩
  else if str_in "403" msg || str_in_lower "forbidden" msg then
    ⟨403, "Access denied - content may be private or geo-blocked"⟩
  else if str_in "404" msg || str_in_lower "not found" msg then
    ⟨404, "Content not found - URL may be invalid"⟩
  else ⟨500, "Server error: " ++ msg⟩

/-- `str()` of a `fastapi.HTTPException`, as used when a handler's generic
`except Exception` catches an `HTTPException` raised inside the `try` body:
Starlette renders it as `"<status>: <detail>"`. -/
def strOfHTTPException (e : ErrResp) : String :=
  toString e.status ++ ": " ++ e.detail

/-! ## Title sanitization (main.py lines 369-370, 464-465, 534-535) -/

/-- The character class kept by the sanitizer:
`c.isalnum() or c in (' ', '-', '_')` (alphanumerics modelled over ASCII). -/
def pyAllowed (c : Char) : Bool := c.isAlphanum || c == ' ' || c == '-' || c == '_'

/-- Python `str.strip()`: drop whitespace from both ends. -/
def stripEnds (cs : List Char) : List Char :=
  ((cs.dropWhile Char.isWhitespace).reverse.dropWhile Char.isWhitespace).reverse

/-- The sanitizer:
`"".join(c for c in title if c.isalnum() or c in (' ', '-', '_')).strip()`. -/
def sanitize_title (t : String) : String :=
  (stripEnds (t.toList.filter pyAllowed)).asString

/-- The title actually used by the download handlers:
`info.get('title', fallback)` followed by the sanitizer.  The fallback is
consulted only when the engine's info dict has no title key at all. -/
def responseTitle (engineTitle : Option String) (fallback : String) : String :=
  sanitize_title (engineTitle.getD fallback)

/-! ## Filesystem model and `cleanup_temp_files` (main.py lines 142-153)

A download request owns exactly one temporary directory, so the filesystem
state relevant to a request is that directory: `none` when the directory
does not exist, `some ents` when it exists and holds the listed regular
files (the source never creates subdirectories inside it). -/

/-- A regular file inside the workspace: its name and its size in bytes. -/
structure FileEnt where
  name : String
  size : Nat
deriving DecidableEq, Repr

/-- The workspace directory: `none` = the directory does not exist. -/
abbrev WS := Option (List FileEnt)

/-- A name is hidden when it begins with a dot; `glob.glob(dir + '/*')`
skips such names. -/
def isHidden (n : String) : Bool := n.toList.head? == some '.'

/-- `glob.glob(os.path.join(temp_dir, '*'))`: the non-hidden entries, and
the empty list when the directory does not exist (glob does not raise). -/
def glob_glob (ws : WS) : List String :=
  match ws with
  | none => []
  | some ents => (ents.filter (fun e => !isHidden e.name)).map FileEnt.name

/-- `os.unlink(name)`: removes the named file, raising (modelled by
`Except.error`) when the directory or the file is absent. -/
def os_unlink (ws : WS) (n : String) : Except String WS :=
  match ws with
  | none => .error "FileNotFoundError"
  | some ents =>
      if ents.any (fun e => e.name == n) then
        .ok (some (ents.filter (fun e => !(e.name == n))))
      else .error "FileNotFoundError"

/-- `os.rmdir(temp_dir)`: succeeds only on an existing empty directory. -/
def os_rmdir (ws : WS) : Except String WS :=
  match ws with
  | none => .error "FileNotFoundError"
  | some [] => .ok none
  | some (_ :: _) => .error "OSError: directory not empty"

/-- The per-file loop of `cleanup_temp_files`: each `os.unlink` sits in its
own `try/except` that logs and continues, so a failing unlink leaves the
state unchanged. -/
def unlink_all (s : WS) (names : List String) : WS :=
  names.foldl
    (fun st n =>
      match os_unlink st n with
      | .ok st' => st'
      | .error _ => st)
    s

/-- The body of `cleanup_temp_files` before its outer `except` clause:
glob the directory, unlink every match (with per-file catches), then
`os.rmdir` — the only operation left that can still raise. -/
def cleanup_inner (ws : WS) : Except String WS :=
  os_rmdir (unlink_all ws (glob_glob ws))

/-- `cleanup_temp_files` with Python's exception semantics made explicit:
the whole body sits in `try/except Exception`, whose handler only logs, so
every raise from the body is converted into a normal return with the state
the body had reached. -/
def cleanup_run (ws : WS) : Except String WS :=
  match cleanup_inner ws with
  | .ok s => .ok s
  | .error _ => .ok (unlink_all ws (glob_glob ws))

/-- `cleanup_temp_files` as a state transformer on the workspace. -/
def cleanup_temp_files (ws : WS) : WS :=
  match cleanup_run ws with
  | .ok s => s
  | .error _ => ws

/-! ## Filename helpers shared by the download handlers -/

/-- Model of `os.path.splitext(name)[1][1:]`: the extension after the last
dot, where the leading dots of the name carry no extension. -/
def pyExt (name : String) : String :=
  let rest := name.toList.dropWhile (fun c => c == '.')
  if rest.contains '.' then
    ((rest.reverse.takeWhile (fun c => !(c == '.'))).reverse).asString
  else ""

/-- The idiom `os.path.splitext(f)[1][1:] or dflt`. -/
def extOrDefault (name dflt : String) : String :=
  let e := pyExt name
  if e.isEmpty then dflt else e

/-- `glob.glob(os.path.join(temp_dir, base + '*'))`: the entries whose name
begins with `base`, in listing order. -/
def glob_base (ents : List FileEnt) (base : String) : List FileEnt :=
  ents.filter (fun e => leadsWith base.toList e.name.toList)

/-- Python truthiness of an optional string (`None` and `''` are falsy). -/
def pyTruthy (o : Option String) : Bool :=
  match o with
  | none => false
  | some s => !s.isEmpty

/-! ## Oracles for the external calls

The extraction engine and the HTTP fetches are outside the repository; a
handler run is parametrized by a value describing what each external call
did, while every branch taken on that value is translated from main.py. -/

/-- Outcome of `ydl.extract_info(url, download=True)` inside a download
handler: the engine either returns an info dict (with the files it wrote
into the workspace), raises `yt_dlp.utils.DownloadError`, or raises some
other exception; in the failure cases it may still have written files. -/
inductive EngineRun where
  | ok (title : Option String) (files : List FileEnt)
  | dlError (files : List FileEnt) (msg : String)
  | exc (files : List FileEnt) (msg : String)
deriving DecidableEq, Repr

/-- The files the engine left in the workspace, in every outcome. -/
def EngineRun.files : EngineRun → List FileEnt
  | .ok _ fs => fs
  | .dlError fs _ => fs
  | .exc fs _ => fs

/-- Whether the transport consumed the whole stream or the client
disconnected mid-stream.  Starlette runs the scheduled background tasks
after the response ends in either way. -/
inductive StreamOutcome where
  | completed | disconnected
deriving DecidableEq, Repr

/-- What the caller of a download endpoint observes: a streamed attachment
(status, filename from the Content-Disposition header, Content-Length,
whether the stream ran to completion) or an error response. -/
inductive HResult where
  | streamed (status : Nat) (filename : String) (contentLength : Nat) (finished : Bool)
  | failed (e : ErrResp)
deriving DecidableEq, Repr

/-- The HTTP status of a handler result. -/
def HResult.statusCode : HResult → Nat
  | .streamed s _ _ _ => s
  | .failed e => e.status

/-- A full handler run: the response, whether `tempfile.mkdtemp()` ran,
whether the extraction engine was invoked, and the final state of the
workspace directory. -/
structure RunOut where
  result : HResult
  wsCreated : Bool
  engineCalled : Bool
  wsFinal : WS
deriving DecidableEq, Repr

/-! ## `POST /api/download` (`download_media_streaming`, main.py 346-437) -/

/-- The `/api/download` handler.  Exit paths: unknown platform is rejected
before `mkdtemp`; an empty glob raises an `HTTPException(400)` that the
handler's own generic `except Exception` catches, cleans up after, and
re-raises as a 500 `Server error: <str(exc)>`; a located file is streamed
with deferred cleanup; `DownloadError` is classified (403/408/400) after a
synchronous cleanup; any other exception cleans up and yields a 500. -/
def download_media_streaming (url : String) (eng : EngineRun)
    (oc : StreamOutcome) : RunOut :=
  if detect_platform url = Platform.unknown then
    { result := .failed ⟨400, "Unsupported platform"⟩,
      wsCreated := false, engineCalled := false, wsFinal := none }
  else
    match eng with
    | .ok titleOpt files =>
        let title := responseTitle titleOpt "downloaded_video"
        match glob_base files "video" with
        | [] =>
            { result := .failed ⟨500, "Server error: " ++
                strOfHTTPException ⟨400, "No file was downloaded"⟩⟩,
              wsCreated := true, engineCalled := true,
              wsFinal := cleanup_temp_files (some files) }
        | f :: _ =>
            let ext := extOrDefault f.name "mp4"
            { result := .streamed 200 (title ++ "." ++ ext) f.size (oc == .completed),
              wsCreated := true, engineCalled := true,
              wsFinal := cleanup_temp_files (some files) }
    | .dlError files msg =>
        { result := .failed (classifyDownloadError msg),
          wsCreated := true, engineCalled := true,
          wsFinal := cleanup_temp_files (some files) }
    | .exc files msg =>
        { result := .failed ⟨500, "Server error: " ++ msg⟩,
          wsCreated := true, engineCalled := true,
          wsFinal := cleanup_temp_files (some files) }

/-! ## `POST /api/download_format` (`download_format_streaming`, 440-504) -/

/-- The `/api/download_format` handler.  It performs no platform check and
has a single `except Exception` clause, so every failure — including a
`DownloadError` and the internally raised no-file `HTTPException(400)` —
is cleaned up after and re-raised as a 400 `Download failed: <str(exc)>`. -/
def download_format_streaming (_url : String) (_format_id : Option String)
    (eng : EngineRun) (oc : StreamOutcome) : RunOut :=
  match eng with
  | .ok titleOpt files =>
      let title := responseTitle titleOpt "downloaded_video"
      match glob_base files "video" with
      | [] =>
          { result := .failed ⟨400, "Download failed: " ++
              strOfHTTPException ⟨400, "No file was downloaded"⟩⟩,
            wsCreated := true, engineCalled := true,
            wsFinal := cleanup_temp_files (some files) }
      | f :: _ =>
          let ext := extOrDefault f.name "mp4"
          { result := .streamed 200 (title ++ "." ++ ext) f.size (oc == .completed),
            wsCreated := true, engineCalled := true,
            wsFinal := cleanup_temp_files (some files) }
  | .dlError files msg =>
      { result := .failed ⟨400, "Download failed: " ++ msg⟩,
        wsCreated := true, engineCalled := true,
        wsFinal := cleanup_temp_files (some files) }
  | .exc files msg =>
      { result := .failed ⟨400, "Download failed: " ++ msg⟩,
        wsCreated := true, engineCalled := true,
        wsFinal := cleanup_temp_files (some files) }

/-! ## `POST /api/download_photo` (`download_photo_streaming`, 507-610) -/

/-- What the HTTP scraping fallback of the photo handler encountered:
either one of its two fetches raised (caught by the handler's outer
`except Exception`), or the page fetch succeeded and reported the given
`og:image` content, image-fetch status, content type and body size. -/
inductive FallbackRun where
  | netExc (msg : String)
  | page (ogImage : Option String) (imgStatus : Nat) (ctype : String) (imgSize : Nat)
deriving DecidableEq, Repr

/-- The content-type sniffing of the photo fallback:
`'png' in content_type`, then `'webp'`, else `'jpg'`. -/
def photoExtOf (ctype : String) : String :=
  if str_in "png" ctype then "png"
  else if str_in "webp" ctype then "webp"
  else "jpg"

/-- The `/api/download_photo` handler.  The engine attempt is wrapped in an
inner `try/except Exception`: an engine failure or an empty `photo*` glob
falls through to the HTTP fallback, which writes `photo.<ext>` into the
same workspace or raises an `HTTPException` (404 no image / 400 bad image
fetch) that the outer `except HTTPException` re-raises after cleanup. -/
def download_photo_streaming (url : String) (eng : EngineRun)
    (fb : FallbackRun) (oc : StreamOutcome) : RunOut :=
  if detect_platform url = Platform.unknown then
    { result := .failed ⟨400, "Unsupported platform"⟩,
      wsCreated := false, engineCalled := false, wsFinal := none }
  else
    let engFiles := eng.files
    let viaEngine : Option (String × FileEnt) :=
      match eng with
      | .ok titleOpt files =>
          match glob_base files "photo" with
          | f :: _ => some (responseTitle titleOpt "downloaded_photo", f)
          | [] => none
      | _ => none
    match viaEngine with
    | some (title, f) =>
        let ext := extOrDefault f.name "jpg"
        { result := .streamed 200 (title ++ "." ++ ext) f.size (oc == .completed),
          wsCreated := true, engineCalled := true,
          wsFinal := cleanup_temp_files (some engFiles) }
    | none =>
        match fb with
        | .netExc msg =>
            { result := .failed ⟨400, "Failed to download photo: " ++ msg⟩,
              wsCreated := true, engineCalled := true,
              wsFinal := cleanup_temp_files (some engFiles) }
        | .page ogImage imgStatus ctype imgSize =>
            if pyTruthy ogImage then
              if imgStatus != 200 then
                { result := .failed ⟨400, "Failed to download image"⟩,
                  wsCreated := true, engineCalled := true,
                  wsFinal := cleanup_temp_files (some engFiles) }
              else
                let ext := photoExtOf ctype
                let fname := "photo." ++ ext
                let ws2 := engFiles ++ [⟨fname, imgSize⟩]
                { result := .streamed 200
                    ("downloaded_photo" ++ "." ++ extOrDefault fname "jpg")
                    imgSize (oc == .completed),
                  wsCreated := true, engineCalled := true,
                  wsFinal := cleanup_temp_files (some ws2) }
            else
              { result := .failed ⟨404, "No image found"⟩,
                wsCreated := true, engineCalled := true,
                wsFinal := cleanup_temp_files (some engFiles) }

/-! ## `POST /api/extract` (`extract_media`, main.py 313-343) and the
per-platform info helpers (156-276) -/

/-- The info dict returned by `ydl.extract_info(url, download=False)`,
restricted to the keys `get_ytdlp_info` reads. -/
structure EngineInfo where
  title : Option String
  thumbnail : Option String
  duration : Option Nat
  uploader : Option String
  formats : Option (List RawFormat)
  url : Option String
deriving DecidableEq, Repr

/-- Outcome of the metadata-only engine call inside `get_ytdlp_info`. -/
inductive ExtractOracle where
  | ok (info : EngineInfo)
  | dlError (msg : String)
  | exc (msg : String)
deriving DecidableEq, Repr

/-- The dict `get_ytdlp_info` returns on success. -/
structure InfoView where
  title : Option String
  thumbnail : Option String
  duration : Option Nat
  author : Option String
  formats : List CandEntry
  direct_url : Option String
deriving DecidableEq, Repr

/-- A Python exception crossing a helper boundary: either an
`HTTPException` (handled by the framework as status + detail) or a raw
exception that will reach `global_exception_handler`. -/
inductive PyErr where
  | http (e : ErrResp)
  | raw (msg : String)
deriving DecidableEq, Repr

/-- `get_ytdlp_info` (main.py 156-213): build the candidate list on
success; classify `DownloadError` by message; any other exception becomes
an `HTTPException(500, "Server error: ...")`. -/
def get_ytdlp_info_run (o : ExtractOracle) : Except ErrResp InfoView :=
  match o with
  | .ok info =>
      .ok { title := info.title
            thumbnail := info.thumbnail
            duration := info.duration
            author := info.uploader
            formats := build_candidates (info.formats.getD [])
            direct_url := info.url }
  | .dlError msg => .error (classifyExtractError msg)
  | .exc msg => .error ⟨500, "Server error: " ++ msg⟩

/-- `get_instagram_info` (main.py 216-241): try the engine; on ANY failure
(its `except Exception:` also swallows the classified `HTTPException`)
scrape the page's Open Graph tags.  When neither `og:video` nor `og:image`
is found, the expression `og_image['content']` subscripts `None` and
raises a `TypeError` (message modelled without its quote characters),
which is not an `HTTPException`.  Each oracle argument is the `content`
of the tag, `none` when the tag is absent. -/
def get_instagram_info (o : ExtractOracle)
    (ogVideo ogImage ogTitle : Option String) : Except PyErr InfoView :=
  match get_ytdlp_info_run o with
  | .ok v => .ok v
  | .error _ =>
      match ogVideo, ogImage with
      | none, none => .error (.raw "TypeError: NoneType object is not subscriptable")
      | some v, img =>
          .ok { title := some (ogTitle.getD "Instagram Post")
                thumbnail := some (img.getD "")
                duration := none
                author := none
                formats := [{ format_id := none, quality := some "original",
                              ext := some "mp4", filesize := none,
                              url := some v, height := none, width := none,
                              fps := none }]
                direct_url := none }
      | none, some i =>
          .ok { title := some (ogTitle.getD "Instagram Post")
                thumbnail := some i
                duration := none
                author := none
                formats := [{ format_id := none, quality := some "original",
                              ext := some "jpg", filesize := none,
                              url := some i, height := none, width := none,
                              fps := none }]
                direct_url := none }

/-- `get_linkedin_info` (main.py 254-276): scrape only; `videoSrc` is the
`src` attribute of the first `<video>` tag (`none` when the tag or the
attribute is missing, and an empty string is falsy like in Python);
without a truthy src the helper raises `HTTPException(404)`. -/
def get_linkedin_info (videoSrc : Option String) (poster : Option String) :
    Except PyErr InfoView :=
  if pyTruthy videoSrc then
    .ok { title := some "LinkedIn Video"
          thumbnail := some (poster.getD "")
          duration := none
          author := none
          formats := [{ format_id := none, quality := some "original",
                        ext := some "mp4", filesize := none,
                        url := some (videoSrc.getD ""), height := none,
                        width := none, fps := none }]
          direct_url := none }
  else .error (.http ⟨404, "No video found in LinkedIn post"⟩)

/-- The response of `/api/extract` on success (the `MediaInfo` model). -/
structure MediaOut where
  platform : Platform
  title : String
  thumbnail : String
  duration : Option Nat
  formats : List CandEntry
  author : Option String
deriving DecidableEq, Repr

instance : DecidableEq (Except ErrResp MediaOut) := fun a b =>
  match a, b with
  | .error x, .error y =>
      if h : x = y then isTrue (by rw [h]) else isFalse (by simp [h])
  | .ok x, .ok y =>
      if h : x = y then isTrue (by rw [h]) else isFalse (by simp [h])
  | .error _, .ok _ => isFalse (by simp)
  | .ok _, .error _ => isFalse (by simp)

/-- A full `/api/extract` run: the response (or the error the framework
renders) and whether any engine adapter was invoked. -/
structure ExtractOut where
  response : Except ErrResp MediaOut
  engineCalled : Bool
deriving DecidableEq, Repr

/-- `extract_media` (main.py 313-343): reject unknown platforms before any
handler dispatch; instagram falls back to scraping; linkedin uses scraping
only (no engine call); every other platform calls `get_ytdlp_info`
directly.  A raw (non-HTTP) exception escaping the helper reaches the
FastAPI-level `global_exception_handler`. -/
def extract_media (url : String) (o : ExtractOracle)
    (ogVideo ogImage ogTitle : Option String)
    (liSrc : Option String) (liPoster : Option String) : ExtractOut :=
  let platform := detect_platform url
  if platform = Platform.unknown then
    ⟨.error ⟨400, "Unsupported platform"⟩, false⟩
  else
    let infoE : Except PyErr InfoView :=
      match platform with
      | .instagram => get_instagram_info o ogVideo ogImage ogTitle
      | .linkedin => get_linkedin_info liSrc liPoster
      | _ =>
          match get_ytdlp_info_run o with
          | .ok v => .ok v
          | .error e => .error (.http e)
    let engineCalled := platform ≠ Platform.linkedin
    match infoE with
    | .ok v =>
        ⟨.ok { platform := platform
               title := v.title.getD "Untitled"
               thumbnail := v.thumbnail.getD ""
               duration := v.duration
               formats := v.formats
               author := v.author }, engineCalled⟩
    | .error (.http e) => ⟨.error e, engineCalled⟩
    | .error (.raw m) => ⟨.error (global_exception_handler m), engineCalled⟩

/-! ## Predicates used by the theorems -/

/-- The hidden-file predicate used to state that the extraction engine
writes only base-prefixed (hence non-hidden) files, per the materialize
contract (spec section 4.2: a fixed base filename `video` or `photo`). -/
def NoHidden (l : List FileEnt) : Prop :=
  ∀ e ∈ l, isHidden e.name = false

instance (l : List FileEnt) : Decidable (NoHidden l) := by
  unfold NoHidden; infer_instance

/-- The descending-key relation the sorted candidate list satisfies. -/
def DescBy (a b : CandEntry) : Prop := candKey b ≤ candKey a

/-- Whether the metadata-engine oracle describes a failing call. -/
def oracleFails (o : ExtractOracle) : Bool :=
  match o with
  | .ok _ => false
  | .dlError _ => true
  | .exc _ => true

/-! ## Lemmas about `cleanup_temp_files` -/

/-- One caught-unlink step, as performed by the loop of `unlink_all`:
whether or not the named file exists, the state afterwards is the
directory without the entries of that name. -/
lemma unlink_step (ents : List FileEnt) (n : String) :
    (match os_unlink (some ents) n with
     | .ok st' => st'
     | .error _ => some ents) =
    some (ents.filter (fun e => !(e.name == n))) := by
  by_cases h : ents.any (fun e => e.name == n)
  · simp [os_unlink, h]
  · have : ents.filter (fun e => !(e.name == n)) = ents := by
      rw [List.filter_eq_self]
      intro a ha
      by_contra hc
      exact h (List.any_eq_true.mpr ⟨a, ha, by simpa using hc⟩)
    simp [os_unlink, h, this]

/-- Unlinking a list of names removes exactly the entries bearing one of
those names. -/
lemma unlink_all_some (names : List String) :
    ∀ ents : List FileEnt,
      unlink_all (some ents) names =
        some (ents.filter (fun e => !(names.contains e.name))) := by
  induction names with
  | nil => intro ents; simp [unlink_all]
  | cons n ns ih =>
      intro ents
      show unlink_all
          (match os_unlink (some ents) n with
           | .ok st' => st'
           | .error _ => some ents) ns = _
      rw [unlink_step, ih]
      rw [List.filter_filter]
      refine congrArg some (List.filter_congr ?_)
      intro x _
      by_cases hx : x.name = n <;> simp [hx, List.contains_cons, Bool.and_comm]

/-- Unlinking everything the glob returned leaves exactly the hidden
entries, the ones `glob.glob(dir + '/*')` does not see. -/
lemma unlink_glob (ents : List FileEnt) :
    unlink_all (some ents) (glob_glob (some ents)) =
      some (ents.filter (fun e => isHidden e.name)) := by
  rw [show glob_glob (some ents) =
        (ents.filter (fun e => !isHidden e.name)).map FileEnt.name from rfl]
  rw [unlink_all_some]
  refine congrArg some (List.filter_congr ?_)
  intro e he
  by_cases h : isHidden e.name
  · rw [h]
    rw [Bool.not_eq_true']
    rw [Bool.eq_false_iff]
    intro hc
    have hmem := List.elem_iff.mp hc
    obtain ⟨e', he', hname⟩ := List.mem_map.mp hmem
    have := (List.mem_filter.mp he').2
    rw [hname] at this
    simp [h] at this
  · have hb : isHidden e.name = false := by simpa using h
    rw [hb]
    have hmem : e.name ∈ (ents.filter (fun e => !isHidden e.name)).map FileEnt.name :=
      List.mem_map.mpr ⟨e, List.mem_filter.mpr ⟨he, by simp [hb]⟩, rfl⟩
    have helem : List.elem e.name
        ((ents.filter (fun e => !isHidden e.name)).map FileEnt.name) = true :=
      List.elem_iff.mpr hmem
    simp [List.contains, helem]
    exact ⟨e, ⟨he, hb⟩, rfl⟩

/-- Closed form of `cleanup_temp_files` on an existing directory: the
non-hidden files are always deleted; the directory itself goes away
exactly when no hidden file remains (a failing `os.rmdir` is caught and
only logged). -/
lemma cleanup_some (ents : List FileEnt) :
    cleanup_temp_files (some ents) =
      (if (ents.filter (fun e => isHidden e.name)).isEmpty then none
       else some (ents.filter (fun e => isHidden e.name))) := by
  unfold cleanup_temp_files cleanup_run cleanup_inner
  rw [unlink_glob]
  cases h : ents.filter (fun e => isHidden e.name) with
  | nil => rfl
  | cons a l => rfl

/-- Cleaning up an absent directory is a no-op (glob returns nothing and
the failing `os.rmdir` is caught). -/
lemma cleanup_none : cleanup_temp_files none = none := rfl

/-- When the directory holds only non-hidden files — the case for every
workspace of the source, whose files are engine outputs named `video*` or
`photo*` — cleanup removes all of them and the directory itself. -/
lemma cleanup_of_noHidden {ents : List FileEnt} (h : NoHidden ents) :
    cleanup_temp_files (some ents) = none := by
  rw [cleanup_some]
  have : ents.filter (fun e => isHidden e.name) = [] :=
    List.filter_eq_nil_iff.mpr (fun a ha => by simp [h a ha])
  simp [this]

/-- `cleanup_temp_files` is idempotent as a state transformer. -/
lemma cleanup_idem (ws : WS) :
    cleanup_temp_files (cleanup_temp_files ws) = cleanup_temp_files ws := by
  cases ws with
  | none => rw [cleanup_none, cleanup_none]
  | some ents =>
      have hself : (ents.filter (fun e => isHidden e.name)).filter
          (fun e => isHidden e.name) =
          ents.filter (fun e => isHidden e.name) := by
        rw [List.filter_eq_self]
        intro a ha
        exact (List.mem_filter.mp ha).2
      rw [cleanup_some]
      by_cases h : (ents.filter (fun e => isHidden e.name)).isEmpty = true
      · rw [if_pos h]
        exact cleanup_none
      · rw [if_neg h, cleanup_some, hself, if_neg h]

/-- No invocation of `cleanup_temp_files` raises: the body's exceptions
are all caught (per-file catches inside the loop, the outer catch around
the `os.rmdir`). -/
lemma cleanup_run_isOk (ws : WS) : (cleanup_run ws).isOk = true := by
  unfold cleanup_run
  cases h : cleanup_inner ws <;> rfl

/-! ## Lemmas about the candidate sort -/

lemma mem_insertDesc {z x : CandEntry} :
    ∀ {s : List CandEntry}, z ∈ insertDesc x s ↔ z = x ∨ z ∈ s := by
  intro s
  induction s with
  | nil => simp [insertDesc]
  | cons y ys ih =>
      by_cases h : candKey x < candKey y
      · simp only [insertDesc, if_pos h, List.mem_cons, ih]
        tauto
      · simp only [insertDesc, if_neg h, List.mem_cons]

lemma insertDesc_pairwise {x : CandEntry} :
    ∀ {s : List CandEntry}, List.Pairwise DescBy s →
      List.Pairwise DescBy (insertDesc x s) := by
  intro s
  induction s with
  | nil => intro _; exact List.pairwise_singleton DescBy x
  | cons y ys ih =>
      intro h
      rcases List.pairwise_cons.mp h with ⟨hy, hys⟩
      by_cases hlt : candKey x < candKey y
      · rw [insertDesc, if_pos hlt]
        refine List.pairwise_cons.mpr ⟨?_, ih hys⟩
        intro z hz
        rcases mem_insertDesc.mp hz with rfl | hz'
        · exact Nat.le_of_lt hlt
        · exact hy z hz'
      · rw [insertDesc, if_neg hlt]
        refine List.pairwise_cons.mpr ⟨?_, h⟩
        intro z hz
        rcases List.mem_cons.mp hz with rfl | hz'
        · exact Nat.le_of_not_lt hlt
        · exact Nat.le_trans (hy z hz') (Nat.le_of_not_lt hlt)

lemma sort_pairwise : ∀ l : List CandEntry,
    List.Pairwise DescBy (sort_by_height_desc l)
  | [] => List.Pairwise.nil
  | _ :: xs => insertDesc_pairwise (sort_pairwise xs)

lemma filter_insertDesc_eq {x : CandEntry} {k : Nat} (hx : candKey x = k) :
    ∀ s : List CandEntry,
      (insertDesc x s).filter (fun c => candKey c == k) =
        x :: s.filter (fun c => candKey c == k) := by
  intro s
  induction s with
  | nil => simp [insertDesc, List.filter, hx]
  | cons y ys ih =>
      by_cases h : candKey x < candKey y
      · have hy : (candKey y == k) = false := by
          have : k < candKey y := hx ▸ h
          simp [Nat.ne_of_gt this]
        rw [insertDesc, if_pos h]
        rw [List.filter_cons_of_neg (by simp [hy]), ih,
            List.filter_cons_of_neg (by simp [hy])]
      · rw [insertDesc, if_neg h]
        rw [List.filter_cons_of_pos (by simp [hx])]

lemma filter_insertDesc_ne {x : CandEntry} {k : Nat} (hx : ¬ candKey x = k) :
    ∀ s : List CandEntry,
      (insertDesc x s).filter (fun c => candKey c == k) =
        s.filter (fun c => candKey c == k) := by
  intro s
  induction s with
  | nil =>
      have hb : (candKey x == k) = false := by simp [hx]
      simp [insertDesc, List.filter, hb]
  | cons y ys ih =>
      by_cases h : candKey x < candKey y
      · rw [insertDesc, if_pos h]
        by_cases hy : candKey y = k
        · rw [List.filter_cons_of_pos (by simp [hy]), ih,
              List.filter_cons_of_pos (by simp [hy])]
        · rw [List.filter_cons_of_neg (by simp [hy]), ih,
              List.filter_cons_of_neg (by simp [hy])]
      · rw [insertDesc, if_neg h]
        rw [List.filter_cons_of_neg (by simp [hx])]

/-- Stability of the candidate sort: for every key value, the elements
carrying that key appear in the sorted list in their original order. -/
lemma filter_sort_eq (k : Nat) : ∀ l : List CandEntry,
    (sort_by_height_desc l).filter (fun c => candKey c == k) =
      l.filter (fun c => candKey c == k) := by
  intro l
  induction l with
  | nil => rfl
  | cons x xs ih =>
      show (insertDesc x (sort_by_height_desc xs)).filter _ = _
      by_cases hx : candKey x = k
      · rw [filter_insertDesc_eq hx, ih,
            List.filter_cons_of_pos (by simp [hx])]
      · rw [filter_insertDesc_ne hx, ih,
            List.filter_cons_of_neg (by simp [hx])]

lemma mem_sort {z : CandEntry} : ∀ {l : List CandEntry},
    z ∈ sort_by_height_desc l ↔ z ∈ l := by
  intro l
  induction l with
  | nil => simp [sort_by_height_desc]
  | cons x xs ih =>
      show z ∈ insertDesc x (sort_by_height_desc xs) ↔ _
      rw [mem_insertDesc]
      simp [ih]

/-! ## Lemmas about the title sanitizer -/

lemma mem_dropWhile {p : Char → Bool} {c : Char} :
    ∀ {l : List Char}, c ∈ l.dropWhile p → c ∈ l := by
  intro l
  induction l with
  | nil => simp [List.dropWhile]
  | cons x xs ih =>
      by_cases h : p x
      · rw [List.dropWhile_cons_of_pos h]
        intro hm; exact List.mem_cons_of_mem x (ih hm)
      · rw [List.dropWhile_cons_of_neg h]
        exact id

lemma mem_stripEnds {c : Char} {cs : List Char} (h : c ∈ stripEnds cs) :
    c ∈ cs := by
  unfold stripEnds at h
  have h1 := List.mem_reverse.mp h
  have h2 := mem_dropWhile h1
  have h3 := List.mem_reverse.mp h2
  exact mem_dropWhile h3

lemma head?_dropWhile_not {p : Char → Bool} {c : Char} :
    ∀ {l : List Char}, (l.dropWhile p).head? = some c → p c = false := by
  intro l
  induction l with
  | nil => simp [List.dropWhile]
  | cons x xs ih =>
      by_cases h : p x
      · rw [List.dropWhile_cons_of_pos h]
        exact ih
      · rw [List.dropWhile_cons_of_neg h]
        intro hh
        cases hh
        simpa using h

lemma getLast?_dropWhile {p : Char → Bool} :
    ∀ {l : List Char}, l.dropWhile p ≠ [] →
      (l.dropWhile p).getLast? = l.getLast? := by
  intro l
  induction l with
  | nil => intro h; simp [List.dropWhile] at h
  | cons x xs ih =>
      intro h
      by_cases hp : p x
      · rw [List.dropWhile_cons_of_pos hp] at h ⊢
        cases xs with
        | nil => simp [List.dropWhile] at h
        | cons b bs => rw [ih h, List.getLast?_cons_cons]
      · rw [List.dropWhile_cons_of_neg hp]

/-- Every character of a sanitized title is in the allowed class. -/
lemma sanitize_chars {t : String} {c : Char}
    (h : c ∈ (sanitize_title t).toList) : pyAllowed c = true := by
  have h1 : c ∈ stripEnds (t.toList.filter pyAllowed) := h
  exact (List.mem_filter.mp (mem_stripEnds h1)).2

/-- The sanitized title has no leading whitespace. -/
lemma sanitize_head {t : String} {c : Char}
    (h : (sanitize_title t).toList.head? = some c) : c.isWhitespace = false := by
  have h1 : (stripEnds (t.toList.filter pyAllowed)).head? = some c := h
  unfold stripEnds at h1
  rw [List.head?_reverse] at h1
  have hne : ((t.toList.filter pyAllowed).dropWhile
      Char.isWhitespace).reverse.dropWhile Char.isWhitespace ≠ [] := by
    intro hnil; rw [hnil] at h1; simp at h1
  rw [getLast?_dropWhile hne, List.getLast?_reverse] at h1
  exact head?_dropWhile_not h1

/-- The sanitized title has no trailing whitespace. -/
lemma sanitize_last {t : String} {c : Char}
    (h : (sanitize_title t).toList.getLast? = some c) :
    c.isWhitespace = false := by
  have h1 : (stripEnds (t.toList.filter pyAllowed)).getLast? = some c := h
  unfold stripEnds at h1
  rw [List.getLast?_reverse] at h1
  exact head?_dropWhile_not h1

/-! ## Claim theorems -/

/-- C9: `cleanup_temp_files` never raises for any directory state —
already deleted, absent, or partially removed — because every exception in
its body is caught and only logged; invoking it twice on the same
workspace also does not raise, and the second run changes nothing. -/
theorem C9_cleanup_idempotent_never_raises (ws : WS) :
    (cleanup_run ws).isOk = true ∧
    (cleanup_run (cleanup_temp_files ws)).isOk = true ∧
    cleanup_temp_files (cleanup_temp_files ws) = cleanup_temp_files ws :=
  ⟨cleanup_run_isOk ws, cleanup_run_isOk _, cleanup_idem ws⟩

/-- C5: the returned candidates list holds at most 10 entries for any
engine format list, it is the 10-entry cap of a list sorted by descending
height where entries lacking a height count as height 0 (hence sort last),
and the sort is stable: for every key value, entries of that key stay in
their original discovery order. -/
theorem C5_candidates_sorted_stable_capped (fs : List RawFormat) :
    (build_candidates fs).length ≤ 10 ∧
    List.Pairwise DescBy (build_candidates fs) ∧
    (∀ k, (sorted_candidates fs).filter (fun c => candKey c == k) =
      ((fs.filter keepFormat).map toCandidate).filter (fun c => candKey c == k)) ∧
    build_candidates fs = (sorted_candidates fs).take 10 := by
  refine ⟨?_, ?_, ?_, rfl⟩
  · rw [build_candidates, List.length_take]
    exact min_le_left _ _
  · exact List.Pairwise.sublist (List.take_sublist _ _) (sort_pairwise _)
  · intro k
    exact filter_sort_eq k _

/-- C10 counterexample: with 11 engine formats — ten 720p entries and one
entry with no vcodec and no height — the vcodec-less entry passes the
candidate filter, yet the 10-entry cap cuts it from the returned
candidates list, so it is not kept in the returned list as claimed. -/
theorem C10_counterexample :
    (let fa : RawFormat :=
       ⟨some "a", none, none, some "mp4", none, none, some "avc1", some 720, none, none⟩
     let fnv : RawFormat :=
       ⟨some "nv", none, none, none, none, none, none, none, none, none⟩
     let fs := List.replicate 10 fa ++ [fnv]
     keepFormat fnv = true ∧ fnv ∈ fs.filter keepFormat ∧
       toCandidate fnv ∉ build_candidates fs) := by decide

/-- C10 amended: the candidate filter excludes exactly the entries whose
vcodec is the literal string `none`; an entry with an absent or null
vcodec passes the filter and reaches the sorted candidate list, and it
appears in the returned list unless the 10-entry cap applied afterwards
cuts it. -/
theorem C10_amended_null_vcodec_kept_by_filter
    (fs : List RawFormat) (f : RawFormat) :
    (f ∈ fs.filter keepFormat ↔ f ∈ fs ∧ f.vcodec ≠ some "none") ∧
    (f.vcodec = none → keepFormat f = true) ∧
    (f ∈ fs → f.vcodec = none → toCandidate f ∈ sorted_candidates fs) := by
  refine ⟨?_, ?_, ?_⟩
  · rw [List.mem_filter]
    constructor
    · rintro ⟨h1, h2⟩
      exact ⟨h1, by simpa [keepFormat] using h2⟩
    · rintro ⟨h1, h2⟩
      exact ⟨h1, by simpa [keepFormat] using h2⟩
  · intro h
    simp [keepFormat, h]
  · intro hmem hv
    show toCandidate f ∈ sort_by_height_desc _
    rw [mem_sort]
    exact List.mem_map.mpr
      ⟨f, List.mem_filter.mpr ⟨hmem, by simp [keepFormat, hv]⟩, rfl⟩

/-- Witness for C10 amended, at a one-element format list whose entry has
a null vcodec. -/
theorem C10_amended_witness :
    toCandidate ⟨some "nv", none, none, none, none, none, none, none, none, none⟩ ∈
      sorted_candidates
        [⟨some "nv", none, none, none, none, none, none, none, none, none⟩] :=
  (C10_amended_null_vcodec_kept_by_filter
      [⟨some "nv", none, none, none, none, none, none, none, none, none⟩]
      ⟨some "nv", none, none, none, none, none, none, none, none, none⟩).2.2
    (by decide) rfl

/-- C4 counterexample: the engine message `Video not found` signals
missing content (it contains `not found`), yet the download path maps it
to HTTP 400 — its DownloadError handler has no 404 branch — where the
claim requires 404 on both paths. -/
theorem C4_counterexample :
    str_in_lower "not found" "Video not found" = true ∧
    classifyDownloadError "Video not found" =
      ⟨400, "Download failed: Video not found"⟩ := by decide

/-- C4 amended: on the metadata path a missing-content message (containing
`404` or case-insensitive `not found`) maps to 404 provided the
403/Forbidden branch checked first did not match; forbidden signals map to
403 on both paths; on the download path timeout signals map to 408 and
everything else — including missing-content messages — maps to 400,
because that handler has no NotFound branch. -/
theorem C4_amended_error_classification (msg : String) :
    ((str_in "403" msg || str_in "Forbidden" msg) = false →
      (str_in "404" msg || str_in_lower "not found" msg) = true →
      classifyExtractError msg = ⟨404, "Content not found - URL may be invalid"⟩) ∧
    ((str_in "403" msg || str_in "Forbidden" msg) = true →
      classifyExtractError msg =
        ⟨403, "Access denied - content may be private or geo-blocked"⟩ ∧
      classifyDownloadError msg =
        ⟨403, "Access denied - content may be private or geo-blocked"⟩) ∧
    ((str_in "403" msg || str_in "Forbidden" msg) = false →
      str_in_lower "timeout" msg = true →
      classifyDownloadError msg = ⟨408, "Download timeout - please try again"⟩) ∧
    ((str_in "403" msg || str_in "Forbidden" msg) = false →
      str_in_lower "timeout" msg = false →
      classifyDownloadError msg = ⟨400, "Download failed: " ++ msg⟩) := by
  refine ⟨?_, ?_, ?_, ?_⟩
  · intro h1 h2
    simp [classifyExtractError, h1, h2]
  · intro h1
    exact ⟨by simp [classifyExtractError, h1], by simp [classifyDownloadError, h1]⟩
  · intro h1 h2
    simp [classifyDownloadError, h1, h2]
  · intro h1 h2
    simp [classifyDownloadError, h1, h2]

/-- Witness for C4 amended at the message `Video not found`: 404 on the
metadata path, 400 on the download path. -/
theorem C4_amended_witness :
    classifyExtractError "Video not found" =
      ⟨404, "Content not found - URL may be invalid"⟩ ∧
    classifyDownloadError "Video not found" =
      ⟨400, "Download failed: Video not found"⟩ :=
  ⟨(C4_amended_error_classification "Video not found").1 (by decide) (by decide),
   (C4_amended_error_classification "Video not found").2.2.2 (by decide) (by decide)⟩

/-- C8 counterexample: the global handler does not turn every uncaught
exception into a generic 500 — a message containing `timeout` becomes a
408 — and when it does answer 500 it embeds the raw exception text in the
response rather than a generic message. -/
theorem C8_counterexample :
    global_exception_handler "connection timeout" =
      ⟨408, "Download timeout - please try again"⟩ ∧
    global_exception_handler "disk corrupted at sector 7" =
      ⟨500, "Server error: disk corrupted at sector 7"⟩ := by decide

/-- C8 amended: the global exception handler classifies uncaught
exceptions by message content — timeout signals to 408, 403/forbidden to
403, 404/not-found to 404 — and only everything else to 500, whose detail
string embeds the raw exception text. -/
theorem C8_amended_global_handler (msg : String) :
    (str_in_lower "timeout" msg = true →
      global_exception_handler msg = ⟨408, "Download timeout - please try again"⟩) ∧
    (str_in_lower "timeout" msg = false →
      (str_in "403" msg || str_in_lower "forbidden" msg) = true →
      global_exception_handler msg =
        ⟨403, "Access denied - content may be private or geo-blocked"⟩) ∧
    (str_in_lower "timeout" msg = false →
      (str_in "403" msg || str_in_lower "forbidden" msg) = false →
      (str_in "404" msg || str_in_lower "not found" msg) = true →
      global_exception_handler msg = ⟨404, "Content not found - URL may be invalid"⟩) ∧
    (str_in_lower "timeout" msg = false →
      (str_in "403" msg || str_in_lower "forbidden" msg) = false →
      (str_in "404" msg || str_in_lower "not found" msg) = false →
      global_exception_handler msg = ⟨500, "Server error: " ++ msg⟩) := by
  refine ⟨?_, ?_, ?_, ?_⟩
  · intro h1
    simp [global_exception_handler, h1]
  · intro h1 h2
    simp [global_exception_handler, h1, h2]
  · intro h1 h2 h3
    simp [global_exception_handler, h1, h2, h3]
  · intro h1 h2 h3
    simp [global_exception_handler, h1, h2, h3]

/-- Witness for C8 amended at the message `boom`: no pattern matches and
the 500 response carries the raw text. -/
theorem C8_amended_witness :
    global_exception_handler "boom" = ⟨500, "Server error: boom"⟩ :=
  (C8_amended_global_handler "boom").2.2.2 (by decide) (by decide) (by decide)

/-- C1: across the three download endpoints, on every exit path — success
with the stream fully consumed, a mid-stream client disconnect (cleanup is
a deferred background task that Starlette runs after the response either
way), engine failure of either kind, the internal no-file failure, and
every fallback outcome of the photo endpoint — the workspace directory no
longer exists when the request concludes; the hypothesis is the
materialize contract that the engine writes only base-prefixed (hence
non-hidden) files into the workspace. -/
theorem C1_workspace_never_outlives_request :
    (∀ url eng oc, NoHidden (EngineRun.files eng) →
      (download_media_streaming url eng oc).wsFinal = none) ∧
    (∀ url fid eng oc, NoHidden (EngineRun.files eng) →
      (download_format_streaming url fid eng oc).wsFinal = none) ∧
    (∀ url eng fb oc, NoHidden (EngineRun.files eng) →
      (download_photo_streaming url eng fb oc).wsFinal = none) := by
  refine ⟨?_, ?_, ?_⟩
  · intro url eng oc h
    by_cases hp : detect_platform url = Platform.unknown
    · simp [download_media_streaming, hp]
    · cases eng with
      | ok t files =>
          cases hg : glob_base files "video" with
          | nil => simp [download_media_streaming, hp, hg, cleanup_of_noHidden (show NoHidden files by simpa [EngineRun.files] using h)]
          | cons f rest => simp [download_media_streaming, hp, hg, cleanup_of_noHidden (show NoHidden files by simpa [EngineRun.files] using h)]
      | dlError files m => simp [download_media_streaming, hp, cleanup_of_noHidden (show NoHidden files by simpa [EngineRun.files] using h)]
      | exc files m => simp [download_media_streaming, hp, cleanup_of_noHidden (show NoHidden files by simpa [EngineRun.files] using h)]
  · intro url fid eng oc h
    cases eng with
    | ok t files =>
        cases hg : glob_base files "video" with
        | nil => simp [download_format_streaming, hg, cleanup_of_noHidden (show NoHidden files by simpa [EngineRun.files] using h)]
        | cons f rest => simp [download_format_streaming, hg, cleanup_of_noHidden (show NoHidden files by simpa [EngineRun.files] using h)]
    | dlError files m => simp [download_format_streaming, cleanup_of_noHidden (show NoHidden files by simpa [EngineRun.files] using h)]
    | exc files m => simp [download_format_streaming, cleanup_of_noHidden (show NoHidden files by simpa [EngineRun.files] using h)]
  · intro url eng fb oc h
    by_cases hp : detect_platform url = Platform.unknown
    · simp [download_photo_streaming, hp]
    · have hfb : ∀ pre : List FileEnt, NoHidden pre →
          ∀ (ct : String) (sz : Nat),
            NoHidden (pre ++ [⟨"photo." ++ photoExtOf ct, sz⟩]) := by
        intro pre hpre ct sz
        refine List.forall_mem_append.mpr ⟨hpre, ?_⟩
        intro e he
        rcases List.mem_singleton.mp he with rfl
        rfl
      cases eng with
      | ok t files =>
          cases hg : glob_base files "photo" with
          | cons f rest =>
              simp [download_photo_streaming, hp, hg, EngineRun.files,
                cleanup_of_noHidden (show NoHidden files by simpa [EngineRun.files] using h)]
          | nil =>
              cases fb with
              | netExc m =>
                  simp [download_photo_streaming, hp, hg, EngineRun.files,
                    cleanup_of_noHidden (show NoHidden files by simpa [EngineRun.files] using h)]
              | page ogI st ct sz =>
                  by_cases hi : pyTruthy ogI = true
                  · by_cases hs : (st != 200) = true
                    · simp [download_photo_streaming, hp, hg, hi, hs,
                        EngineRun.files, cleanup_of_noHidden (show NoHidden files by simpa [EngineRun.files] using h)]
                    · simp [download_photo_streaming, hp, hg, hi, hs,
                        EngineRun.files,
                        cleanup_of_noHidden (hfb _ (show NoHidden files by simpa [EngineRun.files] using h) ct sz)]
                  · simp [download_photo_streaming, hp, hg, hi,
                      EngineRun.files, cleanup_of_noHidden (show NoHidden files by simpa [EngineRun.files] using h)]
      | dlError files m =>
          cases fb with
          | netExc m2 =>
              simp [download_photo_streaming, hp, EngineRun.files,
                cleanup_of_noHidden (show NoHidden files by simpa [EngineRun.files] using h)]
          | page ogI st ct sz =>
              by_cases hi : pyTruthy ogI = true
              · by_cases hs : (st != 200) = true
                · simp [download_photo_streaming, hp, hi, hs, EngineRun.files,
                    cleanup_of_noHidden (show NoHidden files by simpa [EngineRun.files] using h)]
                · simp [download_photo_streaming, hp, hi, hs, EngineRun.files,
                    cleanup_of_noHidden (hfb _ (show NoHidden files by simpa [EngineRun.files] using h) ct sz)]
              · simp [download_photo_streaming, hp, hi, EngineRun.files,
                  cleanup_of_noHidden (show NoHidden files by simpa [EngineRun.files] using h)]
      | exc files m =>
          cases fb with
          | netExc m2 =>
              simp [download_photo_streaming, hp, EngineRun.files,
                cleanup_of_noHidden (show NoHidden files by simpa [EngineRun.files] using h)]
          | page ogI st ct sz =>
              by_cases hi : pyTruthy ogI = true
              · by_cases hs : (st != 200) = true
                · simp [download_photo_streaming, hp, hi, hs, EngineRun.files,
                    cleanup_of_noHidden (show NoHidden files by simpa [EngineRun.files] using h)]
                · simp [download_photo_streaming, hp, hi, hs, EngineRun.files,
                    cleanup_of_noHidden (hfb _ (show NoHidden files by simpa [EngineRun.files] using h) ct sz)]
              · simp [download_photo_streaming, hp, hi, EngineRun.files,
                  cleanup_of_noHidden (show NoHidden files by simpa [EngineRun.files] using h)]

/-- Witness for C1, on a disconnected-mid-stream success of
`/api/download`. -/
theorem C1_witness :
    (download_media_streaming "https://youtu.be/a"
        (.ok (some "T") [⟨"video.mp4", 3⟩]) .disconnected).wsFinal = none :=
  C1_workspace_never_outlives_request.1 "https://youtu.be/a"
    (.ok (some "T") [⟨"video.mp4", 3⟩]) .disconnected (by decide)

/-- C2 counterexample: on `/api/download`, a zero-length materialized file
is not rejected — it is streamed as a 200 success — and when
materialization produces no file at all, the internally raised 400 is
swallowed by the handler's generic catch and re-surfaces as a 500, not as
an EmptyResult 400. -/
theorem C2_counterexample :
    (download_media_streaming "https://youtu.be/a"
        (.ok (some "vid") [⟨"video.mp4", 0⟩]) .completed).result =
      .streamed 200 "vid.mp4" 0 true ∧
    (download_media_streaming "https://youtu.be/a"
        (.ok (some "vid") []) .completed).result =
      .failed ⟨500, "Server error: 400: No file was downloaded"⟩ := by decide

/-- C2 amended: on `/api/download`, a successful materialization that
leaves no `video*` file yields HTTP 500 with detail
`Server error: 400: No file was downloaded` (the internal 400 is
re-wrapped by the generic catch), while a located zero-length file is
streamed as a 200 success with Content-Length 0; on
`/api/download_format` the no-file case yields 400
`Download failed: 400: No file was downloaded` and a zero-length file is
likewise streamed; in all four cases the workspace is cleaned up. -/
theorem C2_amended_empty_result (url : String) (t : Option String)
    (files : List FileEnt) (oc : StreamOutcome) :
    (detect_platform url ≠ Platform.unknown → glob_base files "video" = [] →
      NoHidden files →
      download_media_streaming url (.ok t files) oc =
        ⟨.failed ⟨500, "Server error: 400: No file was downloaded"⟩,
          true, true, none⟩) ∧
    (∀ f rest, detect_platform url ≠ Platform.unknown →
      glob_base files "video" = f :: rest → f.size = 0 → NoHidden files →
      download_media_streaming url (.ok t files) oc =
        ⟨.streamed 200
            (responseTitle t "downloaded_video" ++ "." ++ extOrDefault f.name "mp4")
            0 (oc == .completed), true, true, none⟩) ∧
    (∀ fid, glob_base files "video" = [] → NoHidden files →
      download_format_streaming url fid (.ok t files) oc =
        ⟨.failed ⟨400, "Download failed: 400: No file was downloaded"⟩,
          true, true, none⟩) ∧
    (∀ fid f rest, glob_base files "video" = f :: rest → f.size = 0 →
      NoHidden files →
      download_format_streaming url fid (.ok t files) oc =
        ⟨.streamed 200
            (responseTitle t "downloaded_video" ++ "." ++ extOrDefault f.name "mp4")
            0 (oc == .completed), true, true, none⟩) := by
  refine ⟨?_, ?_, ?_, ?_⟩
  · intro h1 h2 h3
    simp [download_media_streaming, if_neg h1, h2, cleanup_of_noHidden h3]
    decide
  · intro f rest h1 h2 hz h3
    simp [download_media_streaming, if_neg h1, h2, hz, cleanup_of_noHidden h3]
  · intro fid h2 h3
    simp [download_format_streaming, h2, cleanup_of_noHidden h3]
    decide
  · intro fid f rest h2 hz h3
    simp [download_format_streaming, h2, hz, cleanup_of_noHidden h3]

/-- Witness for C2 amended: the no-file case of `/api/download`. -/
theorem C2_amended_witness :
    download_media_streaming "https://youtu.be/a" (.ok (some "vid") []) .completed =
      ⟨.failed ⟨500, "Server error: 400: No file was downloaded"⟩,
        true, true, none⟩ :=
  (C2_amended_empty_result "https://youtu.be/a" (some "vid") [] .completed).1
    (by decide) (by decide) (by decide)

/-- C3 counterexample: `/api/download_format` never classifies the
platform: for a URL whose platform is unknown it still creates a
workspace and invokes the engine, and the engine's failure surfaces as a
400 download failure instead of the UnsupportedPlatform rejection. -/
theorem C3_counterexample :
    detect_platform "https://example.com/v" = Platform.unknown ∧
    download_format_streaming "https://example.com/v" none
        (.dlError [] "boom") .completed =
      ⟨.failed ⟨400, "Download failed: boom"⟩, true, true, none⟩ := by decide

/-- C3 amended: `/api/extract`, `/api/download` and `/api/download_photo`
reject a URL of unknown platform with 400 `Unsupported platform` before
invoking any adapter and before creating a workspace, but
`/api/download_format` performs no platform check at all: it creates a
workspace and invokes the engine for any URL. -/
theorem C3_amended_unknown_platform (url : String)
    (h : detect_platform url = Platform.unknown) :
    (∀ o ogV ogI ogT liS liP,
      extract_media url o ogV ogI ogT liS liP =
        ⟨.error ⟨400, "Unsupported platform"⟩, false⟩) ∧
    (∀ eng oc, download_media_streaming url eng oc =
        ⟨.failed ⟨400, "Unsupported platform"⟩, false, false, none⟩) ∧
    (∀ eng fb oc, download_photo_streaming url eng fb oc =
        ⟨.failed ⟨400, "Unsupported platform"⟩, false, false, none⟩) ∧
    (∀ fid eng oc, (download_format_streaming url fid eng oc).wsCreated = true ∧
        (download_format_streaming url fid eng oc).engineCalled = true) := by
  refine ⟨?_, ?_, ?_, ?_⟩
  · intro o ogV ogI ogT liS liP
    simp [extract_media, h]
  · intro eng oc
    simp [download_media_streaming, h]
  · intro eng fb oc
    simp [download_photo_streaming, h]
  · intro fid eng oc
    cases eng with
    | ok t files =>
        cases hg : glob_base files "video" with
        | nil => simp [download_format_streaming, hg]
        | cons f rest => simp [download_format_streaming, hg]
    | dlError files m => simp [download_format_streaming]
    | exc files m => simp [download_format_streaming]

/-- Witness for C3 amended: `/api/download` rejects an unknown URL. -/
theorem C3_amended_witness :
    download_media_streaming "https://example.com/v" (.ok none []) .completed =
      ⟨.failed ⟨400, "Unsupported platform"⟩, false, false, none⟩ :=
  (C3_amended_unknown_platform "https://example.com/v" (by decide)).2.1
    (.ok none []) .completed

/-- C6 counterexample: an engine title made solely of disallowed
characters sanitizes to the empty string and is used as-is — the response
filename collapses to `.mp4` — no generic fallback replaces it (the
`downloaded_video` default applies only when the engine reports no title
key at all). -/
theorem C6_counterexample :
    (download_media_streaming "https://youtu.be/a"
        (.ok (some "!!!") [⟨"video.mp4", 5⟩]) .completed).result =
      .streamed 200 ".mp4" 5 true := by decide

/-- C6 amended: the sanitized title contains only alphanumerics, spaces,
hyphens and underscores and carries no surrounding whitespace; the
generic fallback `downloaded_video` is used only when the engine reports
no title at all — a present title whose sanitization is empty is used
empty. -/
theorem C6_amended_sanitization (t : String) (engineTitle : Option String) :
    (∀ c ∈ (sanitize_title t).toList, pyAllowed c = true) ∧
    (∀ c, (sanitize_title t).toList.head? = some c → c.isWhitespace = false) ∧
    (∀ c, (sanitize_title t).toList.getLast? = some c → c.isWhitespace = false) ∧
    responseTitle none "downloaded_video" = "downloaded_video" ∧
    (engineTitle = some t →
      responseTitle engineTitle "downloaded_video" = sanitize_title t) := by
  refine ⟨?_, ?_, ?_, by decide, ?_⟩
  · intro c hc
    exact sanitize_chars hc
  · intro c hc
    exact sanitize_head hc
  · intro c hc
    exact sanitize_last hc
  · rintro rfl
    rfl

/-- Witness for C6 amended, at the title `  My Video!  `. -/
theorem C6_amended_witness :
    pyAllowed 'M' = true ∧ Char.isWhitespace 'M' = false :=
  ⟨(C6_amended_sanitization "  My Video!  " none).1 'M' (by decide),
   (C6_amended_sanitization "  My Video!  " none).2.1 'M' (by decide)⟩

/-- C7 counterexample: an Instagram metadata request in which the engine
fails and the page carries neither og:video nor og:image does not produce
NotFound: the scraper subscripts `None`, the TypeError escapes to the
global handler, and the caller sees a 500. -/
theorem C7_counterexample :
    (extract_media "https://www.instagram.com/p/x" (.dlError "err")
        none none none none none).response =
      .error ⟨500, "Server error: TypeError: NoneType object is not subscriptable"⟩ := by
  decide

/-- C7 amended: the LinkedIn metadata path with no truthy `<video src>`
fails 404, and the photo-download path with no truthy og:image fails 404
with the workspace cleaned up (whether the engine raised or produced no
`photo*` file); but the Instagram metadata path with neither tag crashes
with a TypeError that the global handler reports as a 500, not a 404. -/
theorem C7_amended_scrape_not_found (url : String) :
    (∀ o ogT liS liP, detect_platform url = Platform.instagram →
      oracleFails o = true →
      (extract_media url o none none ogT liS liP).response =
        .error ⟨500, "Server error: TypeError: NoneType object is not subscriptable"⟩) ∧
    (∀ o ogV ogI ogT liS liP, detect_platform url = Platform.linkedin →
      pyTruthy liS = false →
      (extract_media url o ogV ogI ogT liS liP).response =
        .error ⟨404, "No video found in LinkedIn post"⟩) ∧
    (∀ t files ogI st ct sz oc, detect_platform url ≠ Platform.unknown →
      glob_base files "photo" = [] → NoHidden files → pyTruthy ogI = false →
      download_photo_streaming url (.ok t files) (.page ogI st ct sz) oc =
        ⟨.failed ⟨404, "No image found"⟩, true, true, none⟩) ∧
    (∀ files m ogI st ct sz oc, detect_platform url ≠ Platform.unknown →
      NoHidden files → pyTruthy ogI = false →
      download_photo_streaming url (.exc files m) (.page ogI st ct sz) oc =
        ⟨.failed ⟨404, "No image found"⟩, true, true, none⟩) := by
  refine ⟨?_, ?_, ?_, ?_⟩
  · intro o ogT liS liP hp ho
    cases o with
    | ok info => simp [oracleFails] at ho
    | dlError m =>
        simp [extract_media, hp, get_instagram_info, get_ytdlp_info_run]
        decide
    | exc m =>
        simp [extract_media, hp, get_instagram_info, get_ytdlp_info_run]
        decide
  · intro o ogV ogI ogT liS liP hp hs
    simp [extract_media, hp, get_linkedin_info, hs]
  · intro t files ogI st ct sz oc hp hg h hi
    simp [download_photo_streaming, if_neg hp, hg, hi, EngineRun.files,
      cleanup_of_noHidden h]
  · intro files m ogI st ct sz oc hp h hi
    simp [download_photo_streaming, if_neg hp, hi, EngineRun.files,
      cleanup_of_noHidden h]

/-- Witness for C7 amended: the LinkedIn metadata path at a post with no
video tag. -/
theorem C7_amended_witness :
    (extract_media "https://www.linkedin.com/posts/x" (.dlError "e")
        none none none none none).response =
      .error ⟨404, "No video found in LinkedIn post"⟩ :=
  (C7_amended_scrape_not_found "https://www.linkedin.com/posts/x").2.1
    (.dlError "e") none none none none none (by decide) (by decide)

end YTDLP
